import Mathlib

/-!
Verification of the document diff/patch synchronization engine in
`panel/io.py` against its natural-language specification.

The embedding models, straight from the source:
- `diff` (io.py lines 204-214): drains the document's pending-event ledger
  (`doc._held_events`) into a PATCH-DOC protocol message, gated by the
  process-wide hold flag `state._hold`;
- `block_comm` (lines 217-224): the `@contextmanager` that sets the hold
  flag, yields, and clears it after the yield;
- `push` (lines 227-239): sends a diff's segments and buffers as frames
  over a comm channel;
- `record_events` (lines 266-271): a non-binary diff packaged as a
  header/metadata/content dictionary;
- `embed_state` (lines 274-391): the state explorer that enumerates the
  cross product of widget domains and records per-combination diffs into a
  nested lookup structure;
- the slider discretization inside `embed_state` (lines 322-327), modelled
  on natural-number slider parameters (the integer-step branch).

External collaborators (the bokeh `Protocol` serializer, `json.dumps`, the
comm transport) are passed in as function parameters; their outputs are
carried opaquely, which is all the claims need.
-/

namespace Panel

universe u v

/-- A PATCH-DOC protocol message as produced by
`Protocol("1.0").create("PATCH-DOC", events, use_buffers=binary)`: the
events it patched, three serialized segments, and the binary buffers as
(buffer-header, payload) pairs. `ε` is the event type, `σ` the segment
type, `η` the buffer-header type and `β` the raw payload type. -/
structure Message (ε σ η β : Type u) where
  events : List ε
  header_json : σ
  metadata_json : σ
  content_json : σ
  buffers : List (η × β)

/-- The bokeh protocol constructor. The serialization itself is an external
collaborator, passed in as `serialize`; the message's patched-event list is
the event list handed to the constructor, as PATCH-DOC guarantees. -/
def protocolCreate {ε σ η β : Type u}
    (serialize : Bool → List ε → σ × σ × σ × List (η × β))
    (binary : Bool) (events : List ε) : Message ε σ η β :=
  let s := serialize binary events
  { events := events, header_json := s.1, metadata_json := s.2.1,
    content_json := s.2.2.1, buffers := s.2.2.2 }

/-- Model of `diff(doc, binary=True, events=None)` from io.py lines 204-214.
State is explicit: `hold` is `state._hold`, `held` is `doc._held_events`,
`events?` is the optional explicit event list (`none` means snapshot the
ledger). Returns the optional message together with the ledger left on the
document. The removal pass is the source's list comprehension
`[e for e in doc._held_events if e not in events]`. -/
def diff {ε σ η β : Type u} [DecidableEq ε]
    (create : Bool → List ε → Message ε σ η β) (hold : Bool)
    (held : List ε) (binary : Bool) (events? : Option (List ε)) :
    Option (Message ε σ η β) × List ε :=
  let events := events?.getD held
  if events.isEmpty || hold then (none, held)
  else (some (create binary events),
        held.filter (fun e => decide (¬ e ∈ events)))

/-- Outcome of the body of a `with block_comm():` region: it either returns
normally or raises an exception that propagates out of the region. -/
inductive BodyOutcome : Type
  | ok : BodyOutcome
  | raised : BodyOutcome

/-- Model of `block_comm` from io.py lines 217-224, a `@contextmanager` generator
with no try/finally: it runs `state._hold = True`, yields to the body, and
the line `state._hold = False` executes only when the body returns
normally. When the body raises, the exception is thrown into the generator
at the yield point and propagates, so the assignment after the yield never
runs and the hold flag keeps the value `True` set on entry. The function
returns the value of `state._hold` after the region exits (the flag set on
entry makes any prior value irrelevant). -/
def block_comm (body : BodyOutcome) : Bool :=
  let holdOnEntry := true
  match body with
  | BodyOutcome.ok => false
  | BodyOutcome.raised => holdOnEntry

/-- One frame sent over the comm channel: `comm.send(text_segment)` or
`comm.send(buffers=[payload])`. -/
inductive Frame (σ β : Type u) : Type u
  | text : σ → Frame σ β
  | binary : β → Frame σ β

/-- Model of `push(doc, comm, binary=True)` from io.py lines 227-239. The channel is
modelled by the ordered list of frames sent; `jd` is `json.dumps` applied
to a buffer header. Returns the frames together with the ledger left on
the document by the inner `diff`. -/
def push {ε σ η β : Type u} [DecidableEq ε]
    (create : Bool → List ε → Message ε σ η β) (jd : η → σ)
    (hold : Bool) (held : List ε) (binary : Bool) :
    List (Frame σ β) × List ε :=
  match diff create hold held binary none with
  | (none, held') => ([], held')
  | (some msg, held') =>
      (Frame.text msg.header_json :: Frame.text msg.metadata_json ::
        Frame.text msg.content_json ::
        msg.buffers.flatMap (fun hp => [Frame.text (jd hp.1), Frame.binary hp.2]),
       held')

end Panel

namespace Panel

/-- Model of `record_events(doc)` from io.py lines 266-271: a non-binary `diff`; the
returned header/metadata/content dictionary is `none` when the diff is the
no-patch sentinel (the empty dict) and otherwise carries the message. -/
def record_events {ε σ η β : Type u} [DecidableEq ε]
    (serialize : Bool → List ε → σ × σ × σ × List (η × β))
    (hold : Bool) (held : List ε) :
    Option (Message ε σ η β) × List ε :=
  diff (protocolCreate serialize) hold held false none

/-- One entry of the `values` list built by `embed_state` (io.py lines
310-352): a widget together with its backing bokeh model and resolved value
domain. `value` is the widget's `value` parameter, `mvalue` the backing
model's `value` property (kept in sync through `resolve`, modelling
widgets whose model transforms the nominal value, e.g. a value-to-label
mapping), `vals` the resolved Widget Domain, `canSet` whether assigning a
given value succeeds or raises, and `emits` the mutation events the
assignment propagates into the document ledger through the reactive
object graph. -/
structure EWidget (κ ε : Type u) where
  value : κ
  mvalue : κ
  resolve : κ → κ
  vals : List κ
  canSet : κ → Bool
  emits : κ → List ε

/-- The nested `defaultdict` snapshot tree built by `embed_state`
(io.py lines 368-381): insertion-ordered children keyed by resolved widget
values, and an optional payload written by `sub_dict.update(events)`. -/
inductive NDict (κ : Type u) (π : Type v) : Type (max u v)
  | node : List (κ × NDict κ π) → Option π → NDict κ π

/-- Replace the value at a key of an insertion-ordered association list, or
append the binding at the end when the key is absent (Python dict
semantics). -/
def setAssoc {κ : Type u} {α : Type v} [DecidableEq κ] :
    List (κ × α) → κ → α → List (κ × α)
  | [], k, a => [(k, a)]
  | kv :: rest, k, a =>
      if kv.1 = k then (k, a) :: rest else kv :: setAssoc rest k a

/-- Child lookup with `defaultdict` semantics: a missing key denotes a
fresh empty node (the node is actually inserted by `NDict.recordAt`). -/
def NDict.getChild {κ : Type u} {π : Type v} [DecidableEq κ] :
    NDict κ π → κ → NDict κ π
  | NDict.node cs _, k =>
      match cs.find? (fun c => decide (c.1 = k)) with
      | some c => c.2
      | none => NDict.node [] none

/-- Walk `path` from the root, creating every missing intermediate node as
the `defaultdict` descent `sub_dict = sub_dict[m.value]` does, and at the
final node overwrite the payload when one is supplied (the source's
`if events: sub_dict.update(events)`); with no payload the path nodes are
still created, matching the descent happening before `record_events`. -/
def NDict.recordAt {κ : Type u} {π : Type v} [DecidableEq κ] :
    NDict κ π → List κ → Option π → NDict κ π
  | NDict.node cs p, [], pay =>
      match pay with
      | none => NDict.node cs p
      | some q => NDict.node cs (some q)
  | NDict.node cs p, k :: ks, pay =>
      NDict.node (setAssoc cs k (((NDict.node cs p).getChild k).recordAt ks pay)) p

/-- The inner loop of one cross-product combination (io.py lines 371-378):
`for i, k in enumerate(key)` assigns `w.value = k` under `try`; on an
exception the `continue` skips only that widget's assignment and descent,
so the surviving path holds the backing models' values of exactly the
widgets whose assignment succeeded, and later widgets are still assigned.
Returns the updated widgets, the descent path (`m.value` after each
successful assignment) and the mutation events emitted, in widget order. -/
def setCombo {κ ε : Type u} : List (EWidget κ ε) → List κ →
    List (EWidget κ ε) × List κ × List ε
  | ws, [] => (ws, [], [])
  | [], _ :: _ => ([], [], [])
  | w :: ws, k :: ks =>
      let rest := setCombo ws ks
      if w.canSet k then
        ({ w with value := k, mvalue := w.resolve k } :: rest.1,
         w.resolve k :: rest.2.1, w.emits k ++ rest.2.2)
      else
        (w :: rest.1, rest.2.1, rest.2.2)

/-- The exploration loop of `embed_state` (io.py lines 370-381): for each
combination, assign the widgets, let the emitted events accumulate on the
ledger, take `record_events` (a non-binary `diff` against the global hold
flag), and record its result in the snapshot tree at the descended path. -/
def explore {κ ε σ η β : Type u} [DecidableEq κ] [DecidableEq ε]
    (serialize : Bool → List ε → σ × σ × σ × List (η × β)) (hold : Bool) :
    List (List κ) → List (EWidget κ ε) → List ε → NDict κ (Message ε σ η β) →
    List (EWidget κ ε) × List ε × NDict κ (Message ε σ η β)
  | [], ws, led, tree => (ws, led, tree)
  | key :: rest, ws, led, tree =>
      let s := setCombo ws key
      let r := record_events serialize hold (led ++ s.2.2)
      explore serialize hold rest s.1 r.2 (tree.recordAt s.2.1 r.1)

/-- The restore pass (io.py lines 383-387): `w.set_param(value=v)` under a
`try`/`except: pass`, so a widget whose restore raises keeps its explored
value. -/
def restoreAll {κ ε : Type u} : List (EWidget κ ε) → List κ → List (EWidget κ ε)
  | [], _ => []
  | ws, [] => ws
  | w :: ws, v :: vs =>
      (if w.canSet v then { w with value := v, mvalue := w.resolve v } else w)
        :: restoreAll ws vs

/-- The text of the capacity error before the interpolated count. -/
def capPre : String :=
  "The cross product of different application states is too large to explore (N="

/-- The text of the capacity error after the interpolated count. -/
def capPost : String :=
  "), either reduce the number of options on the widgets or increase the max_states specified on static export."

/-- The `RuntimeError` message of io.py lines 362-366: the `%d` placeholder
is filled with `len(cross_product)`; the `max_states` bound appears only as
the parameter name in the fixed text, never as a number. -/
def capacityMsg (n : Nat) : String :=
  capPre ++ toString n ++ capPost

/-- Model of `itertools.product` over lists: lexicographic enumeration with the last
domain varying fastest. -/
def listProduct {κ : Type u} : List (List κ) → List (List κ)
  | [] => [[]]
  | l :: ls => l.flatMap (fun x => (listProduct ls).map (fun t => x :: t))

/-- Model of `list(product(*[vals[::-1] for _, _, vals in values]))` from io.py line
359: the cross product of the widget domains with every domain reversed
(last value first). -/
def crossProduct {κ : Type u} (domains : List (List κ)) : List (List κ) :=
  listProduct (domains.map List.reverse)

/-- Result of an `embed_state` call: the snapshot tree (or the capacity
error message), the widget values after the call, and the document ledger
after the call. -/
structure EmbedResult (κ ε σ η β : Type u) where
  outcome : Except String (NDict κ (Message ε σ η β))
  values : List κ
  ledger : List ε

/-- Model of `embed_state(panel, model, doc, max_states, max_opts)` from io.py lines
274-391, after the `values` list of widgets with resolved domains has been
built: the source clears the ledger (`doc._held_events = []`, line 355),
snapshots the restore values, computes the reversed-domain cross product,
raises the capacity error when it is larger than `max_states`, otherwise
explores every combination and restores the widgets. The incoming ledger
`ledger0` is the `doc._held_events` content at call time, overwritten by
the clearing assignment. The final `State` model attachment
(`doc.add_root(state_model)`, lines 389-391) touches only the external
document root list and is not part of the claims' footprint. -/
def embed_state {κ ε σ η β : Type u} [DecidableEq κ] [DecidableEq ε]
    (serialize : Bool → List ε → σ × σ × σ × List (η × β)) (hold : Bool)
    (widgets : List (EWidget κ ε)) (max_states : Nat) (ledger0 : List ε) :
    EmbedResult κ ε σ η β :=
  let ledger1 : List ε := []
  let restore := widgets.map (fun w => w.value)
  let cross := crossProduct (widgets.map (fun w => w.vals))
  if cross.length > max_states then
    { outcome := Except.error (capacityMsg cross.length),
      values := restore, ledger := ledger1 }
  else
    let r := explore serialize hold cross widgets ledger1 (NDict.node [] none)
    { outcome := Except.ok r.2.2,
      values := (restoreAll r.1 restore).map (fun w => w.value),
      ledger := r.2.1 }

/-- Model of `np.arange(start, stop, step)` on natural numbers with a positive step:
the values `start + i * step` strictly below `stop`, i.e.
`ceil((stop - start) / step)` evenly spaced points. -/
def arange (start stop step : Nat) : List Nat :=
  (List.range ((stop - start + step - 1) / step)).map (fun i => start + i * step)

/-- The slider discretization of io.py lines 322-327, on natural-number
slider parameters (the integer-step branch, where `dtype` is `int`): with
`span = end - start`, the true-division guard `(span/step) > (max_opts-1)`
is, for a positive step, `span > (max_opts-1)*step`, and
`int(span/(max_opts-1))` truncates the nonnegative quotient, i.e. floor
division; the domain is then `np.arange(start, end+step, step)` with the
promoted step. -/
def discretize (start endv step max_opts : Nat) : List Nat :=
  let span := endv - start
  let step1 := if span > (max_opts - 1) * step then span / (max_opts - 1) else step
  arange start (endv + step1) step1

/-! ### Concrete instances used by witnesses and counterexamples -/

/-- A trivial external serializer producing fixed segments and no buffers. -/
def serialize0 : Bool → List Nat → String × String × String × List (String × String) :=
  fun _ _ => ("h", "m", "c", [])

/-- An external serializer producing two binary buffers, exercising the
buffer frames of `push`. -/
def serializeB : Bool → List Nat → String × String × String × List (String × String) :=
  fun _ _ => ("H", "M", "C", [("b1", "p1"), ("b2", "p2")])

/-- A widget with an eight-value domain whose assignments always succeed. -/
def w8 : EWidget Nat Nat :=
  { value := 0, mvalue := 0, resolve := fun k => k, vals := [0, 1, 2, 3, 4, 5, 6, 7],
    canSet := fun _ => true, emits := fun _ => [] }

/-- A widget whose value assignment always raises. -/
def wFail : EWidget Nat Nat :=
  { value := 0, mvalue := 0, resolve := fun k => k, vals := [1],
    canSet := fun _ => false, emits := fun _ => [] }

/-- A widget whose value assignment succeeds and emits one mutation event. -/
def wOk : EWidget Nat Nat :=
  { value := 10, mvalue := 10, resolve := fun k => k, vals := [11],
    canSet := fun _ => true, emits := fun k => [k] }

/-! ### Helper lemmas -/

/-- Filtering a list by non-membership in itself leaves nothing. -/
theorem filter_not_mem_self {ε : Type u} [DecidableEq ε] (l : List ε) :
    l.filter (fun e => decide (¬ e ∈ l)) = [] := by
  rw [List.filter_eq_nil_iff]
  intro a ha
  simp [ha]

/-- A `diff` immediately following a `diff` with no intervening mutation is
a complete no-op: it returns the no-patch sentinel and leaves the ledger of
the first call untouched. -/
theorem diff_after_diff {ε σ η β : Type u} [DecidableEq ε]
    (create : Bool → List ε → Message ε σ η β) (hold b1 b2 : Bool) (held : List ε) :
    diff create hold (diff create hold held b1 none).2 b2 none =
      (none, (diff create hold held b1 none).2) := by
  by_cases hc : (held.isEmpty || hold) = true
  · have h1 : (diff create hold held b1 none).2 = held := by
      simp [diff, hc]
    rw [h1]
    simp [diff, hc]
  · have h1 : (diff create hold held b1 none).2 =
        held.filter (fun e => decide (¬ e ∈ held)) := by
      simp [diff, hc]
    rw [h1, filter_not_mem_self]
    simp [diff]

/-- The ledger left by `push` is the ledger left by the inner `diff`. -/
theorem push_snd {ε σ η β : Type u} [DecidableEq ε]
    (create : Bool → List ε → Message ε σ η β) (jd : η → σ)
    (hold : Bool) (held : List ε) (binary : Bool) :
    (push create jd hold held binary).2 = (diff create hold held binary none).2 := by
  unfold push
  rcases hd : diff create hold held binary none with ⟨m?, l'⟩
  cases m? <;> simp

/-! ### The claims -/

/-- C1: for every call to `diff` that returns a real patch message, every
event included in that patch is removed from the document's pending-event
ledger, every pending event not included in the patch remains in the
ledger in its original relative order, and events appended to the ledger
during encoding are not removed. The ledger at removal time is
`held ++ appended`, where `appended` models the events appended while the
protocol message was being encoded from the resolved event list `evs`. -/
theorem diff_drains_patched_events {ε σ η β : Type u} [DecidableEq ε]
    (serialize : Bool → List ε → σ × σ × σ × List (η × β)) (binary hold : Bool)
    (held appended evs : List ε) (msg : Message ε σ η β) (held' : List ε)
    (h : diff (protocolCreate serialize) hold (held ++ appended) binary (some evs) =
      (some msg, held'))
    (happ : ∀ a ∈ appended, ¬ a ∈ evs) :
    msg.events = evs ∧
    (∀ e ∈ msg.events, ¬ e ∈ held') ∧
    held' = (held ++ appended).filter (fun e => decide (¬ e ∈ evs)) ∧
    held'.Sublist (held ++ appended) ∧
    (∀ e ∈ held ++ appended, ¬ e ∈ evs → e ∈ held') ∧
    held' = held.filter (fun e => decide (¬ e ∈ evs)) ++ appended := by
  simp only [diff, Option.getD_some] at h
  split at h
  · simp at h
  · injection h with h1 h2
    injection h1 with h1
    subst h1 h2
    refine ⟨rfl, ?_, rfl, List.filter_sublist _, ?_, ?_⟩
    · intro e he hmem
      rw [List.mem_filter] at hmem
      have hne : ¬ e ∈ evs := by simpa using hmem.2
      exact hne (by simpa [protocolCreate] using he)
    · intro e he hev
      rw [List.mem_filter]
      exact ⟨he, by simpa using hev⟩
    · rw [List.filter_append]
      congr 1
      rw [List.filter_eq_self]
      intro a ha
      simpa using happ a ha

/-- C1 witness: a concrete drain; the patch encodes event `2`, the ledger
`[1, 2, 3]` with `4` appended during encoding ends up as `[1, 3, 4]`, and
the patched event is gone from it. -/
theorem diff_drains_patched_events_witness :
    (protocolCreate serialize0 true [2] : Message Nat String String String).events = [2] ∧
    ¬ (2 : Nat) ∈ ([1, 3, 4] : List Nat) :=
  ⟨(diff_drains_patched_events serialize0 true false [1, 2, 3] [4] [2]
      (protocolCreate serialize0 true [2]) [1, 3, 4] (by rfl) (by decide)).1,
   (diff_drains_patched_events serialize0 true false [1, 2, 3] [4] [2]
      (protocolCreate serialize0 true [2]) [1, 3, 4] (by rfl) (by decide)).2.1 2 (by decide)⟩

/-- C2: while the process-wide hold flag is set, `diff` returns the
no-patch sentinel and the document's pending-event ledger is unchanged
afterward, whatever the ledger contents and the explicit-events argument. -/
theorem diff_hold_returns_none {ε σ η β : Type u} [DecidableEq ε]
    (create : Bool → List ε → Message ε σ η β) (binary : Bool)
    (held : List ε) (events? : Option (List ε)) :
    diff create true held binary events? = (none, held) := by
  simp [diff]

/-- C3: the claim says `block_comm` clears the hold flag on every exit
path; the code has no try/finally, so when the body raises, the assignment
after the yield is skipped and the flag stays set. Evaluating the embedded
context manager: the normal exit clears the flag, the exception exit
leaves it set. -/
theorem block_comm_hold_after_exit :
    block_comm BodyOutcome.raised = true ∧ block_comm BodyOutcome.ok = false :=
  ⟨rfl, rfl⟩

/-- C4: whenever `push` transmits a patch message, the frame sequence sent
over the channel is exactly: the header segment, the metadata segment, the
content segment, then for each binary buffer in order a text frame with
the buffer's header followed by a binary frame with its payload — and
nothing else. -/
theorem push_frame_sequence {ε σ η β : Type u} [DecidableEq ε]
    (create : Bool → List ε → Message ε σ η β) (jd : η → σ)
    (hold : Bool) (held : List ε) (binary : Bool)
    (msg : Message ε σ η β) (held' : List ε)
    (h : diff create hold held binary none = (some msg, held')) :
    push create jd hold held binary =
      (Frame.text msg.header_json :: Frame.text msg.metadata_json ::
        Frame.text msg.content_json ::
        msg.buffers.flatMap (fun hp => [Frame.text (jd hp.1), Frame.binary hp.2]),
       held') := by
  unfold push
  rw [h]

/-- C4 witness: a push of a message with two buffers sends exactly the
seven expected frames in order. -/
theorem push_frame_sequence_witness :
    push (protocolCreate serializeB) (fun s => s) false [5] true =
      ([Frame.text ("H"), Frame.text ("M"), Frame.text ("C"),
        Frame.text ("b1"), Frame.binary ("p1"), Frame.text ("b2"), Frame.binary ("p2")], []) :=
  push_frame_sequence (protocolCreate serializeB) (fun s => s) false [5] true
    (protocolCreate serializeB true [5]) [] (by rfl)

/-- C5: calling `diff` twice with no intervening document mutation yields
the no-patch sentinel on the second call, and a `push` immediately
followed by a second `push` sends zero frames on the second call. -/
theorem diff_idempotent_push_silent {ε σ η β : Type u} [DecidableEq ε]
    (create : Bool → List ε → Message ε σ η β) (jd : η → σ)
    (hold b1 b2 : Bool) (held : List ε) :
    (diff create hold (diff create hold held b1 none).2 b2 none).1 = none ∧
    (push create jd hold (push create jd hold held b1).2 b2).1 = [] := by
  constructor
  · rw [diff_after_diff]
  · rw [push_snd]
    unfold push
    rw [diff_after_diff]

/-- C6: the state explorer enumerates the cross product of the widget
domains with each domain iterated in reverse order (last value first): for
two controls with domains `[A, B]` and `[X, Y]` the combinations are
visited in exactly the order `(B,Y), (B,X), (A,Y), (A,X)`. -/
theorem crossProduct_reverse_order {α : Type u} (A B X Y : α) :
    crossProduct [[A, B], [X, Y]] = [[B, Y], [B, X], [A, Y], [A, X]] := rfl

/-- C7 counterexample: with one widget of eight values and `max_states = 7`
the call fails with the capacity message for the requested count 8, but the
message does not include the allowed count: the digit `7` does not occur
anywhere in it, so the claim that the message includes both counts is
false. -/
theorem embed_capacity_message_counterexample :
    (embed_state serialize0 false [w8] 7 [99]).outcome = Except.error (capacityMsg 8) ∧
    ¬ '7' ∈ (capacityMsg 8).data :=
  ⟨rfl, by decide⟩

/-- C7 (amended): if the cross product of the widget domains is larger than
`max_states`, `embed_state` fails with the capacity error before mutating
any control's value — every control's value after the failed call equals
its value before the call — and the error message includes the requested
count (the allowed count appears only as the parameter name `max_states`,
not as a number). -/
theorem embed_capacity_guard {κ ε σ η β : Type u} [DecidableEq κ] [DecidableEq ε]
    (serialize : Bool → List ε → σ × σ × σ × List (η × β)) (hold : Bool)
    (widgets : List (EWidget κ ε)) (max_states : Nat) (ledger0 : List ε)
    (h : (crossProduct (widgets.map (fun w => w.vals))).length > max_states) :
    (embed_state serialize hold widgets max_states ledger0).outcome =
      Except.error
        (capPre ++ toString (crossProduct (widgets.map (fun w => w.vals))).length ++ capPost) ∧
    (embed_state serialize hold widgets max_states ledger0).values =
      widgets.map (fun w => w.value) := by
  constructor <;> simp [embed_state, capacityMsg, h]

/-- C7 witness: the failing call of the counterexample leaves the widget's
value at its pre-call value `0`. -/
theorem embed_capacity_guard_witness :
    (embed_state serialize0 false [w8] 7 [99]).values = [0] :=
  (embed_capacity_guard serialize0 false [w8] 7 [99] (by decide)).2

/-- C8: the claim says a combination whose control assignment raises is
skipped with no snapshot entry recorded under it; in the code the
`continue` targets the inner per-widget loop, so the failed widget's
assignment and descent are skipped but the remaining widgets are still
assigned and a snapshot entry is still recorded at the truncated path.
Evaluating the explorer on the single combination `(1, 11)` whose first
widget raises: the snapshot tree carries a recorded patch under the path
`[11]` branching from that combination (the patch holds the event emitted
by the second widget, which was assigned despite the failure). -/
theorem embed_failed_set_records_entry :
    (embed_state serialize0 false [wFail, wOk] 100 []).outcome =
      Except.ok (NDict.node
        [(11, NDict.node [] (some (protocolCreate serialize0 false [11])))] none) := rfl

/-- C9: the claim says the discretized domain has at most
`max_options_per_widget` values and spans `[start, end]`; for an integer
slider with `start = 0`, `end = 5`, `step = 1` and `max_opts = 3` the code
truncates the promoted step to `int(5/2) = 2` and samples
`np.arange(0, 5+2, 2) = [0, 2, 4, 6]`: four values, more than `max_opts`,
with the last value `6` beyond `end = 5`. -/
theorem discretize_exceeds_caps :
    discretize 0 5 1 3 = [0, 2, 4, 6] ∧
    3 < (discretize 0 5 1 3).length ∧
    ∃ v ∈ discretize 0 5 1 3, 5 < v :=
  ⟨rfl, by decide, 6, by decide, by decide⟩

/-- C10: `embed_state` unconditionally empties the document's pending-event
ledger before the capacity check: the call's entire result is independent
of the events pending at call time (so they are never diffed or pushed),
and even a call that fails with the capacity error leaves the ledger
empty. -/
theorem embed_state_discards_prior_ledger {κ ε σ η β : Type u}
    [DecidableEq κ] [DecidableEq ε]
    (serialize : Bool → List ε → σ × σ × σ × List (η × β)) (hold : Bool)
    (widgets : List (EWidget κ ε)) (max_states : Nat) (l0 l1 : List ε) :
    embed_state serialize hold widgets max_states l0 =
      embed_state serialize hold widgets max_states l1 ∧
    ((crossProduct (widgets.map (fun w => w.vals))).length > max_states →
      (embed_state serialize hold widgets max_states l0).ledger = []) := by
  refine ⟨rfl, fun h => ?_⟩
  simp [embed_state, h]

/-- C10 witness: a capacity-failing call on a document with the pending
event `99` leaves the ledger empty. -/
theorem embed_state_discards_prior_ledger_witness :
    (embed_state serialize0 false [w8] 7 [99]).ledger = [] :=
  (embed_state_discards_prior_ledger serialize0 false [w8] 7 [99] []).2 (by decide)

end Panel
